import Mathlib

/-!
Verification of the TikTok video generator service (`main.py`) against its
natural-language specification.

The service is a FastAPI application with two endpoints:
`/generate-clip/` renders one vertical zoom/pan video clip from a downloaded
image, and `/process-clips/` concatenates existing clips, optionally mixes a
downloaded voice-over and burns in drawtext subtitles.  All media work is
delegated to an external `ffmpeg` process; the code's job is to build argument
lists and filter-graph strings, manage scratch files under `temp_files`, and
schedule their deletion as FastAPI background tasks.

This file embeds the pure content of that code: the path construction
(`os.path.join` interpolation of caller-supplied ids and filenames), the
pydantic field validation that actually runs, the download step's
success/failure decision, the per-frame zoom recurrence denoted by the
`zoompan` filter expression, the `-vf` filter chain, the concat-list loop with
its first-missing-clip failure, the full `ffmpeg` argument list built by
`process_clips_endpoint`, the drawtext overlay chain, and the background
cleanup tasks.  Theorems then settle each specification claim against these
definitions.
-/

/-! ## Generic string helpers

Boolean list/string predicates used to state properties of the command
strings the code builds.  They are kept first-order and structurally recursive
so that concrete instances evaluate inside the kernel. -/

/-- `chListIsPref pat l` is true when the character list `pat` is an initial
segment of `l`. -/
def chListIsPref : List Char → List Char → Bool
  | [], _ => true
  | _ :: _, [] => false
  | a :: as, b :: bs => (a == b) && chListIsPref as bs

/-- `chListHasSub pat l` is true when the character list `pat` occurs
contiguously somewhere inside `l`. -/
def chListHasSub (pat : List Char) : List Char → Bool
  | [] => pat.isEmpty
  | c :: rest => chListIsPref pat (c :: rest) || chListHasSub pat rest

/-- Substring test on strings, via `chListHasSub` on the character data. -/
def strHasSub (s pat : String) : Bool := chListHasSub pat.data s.data

/-- Model of Python's `";".join(parts)`: elements concatenated with a `;`
between consecutive elements, the empty string on an empty list. -/
def joinSemicolon : List String → String
  | [] => ""
  | [p] => p
  | p :: q :: rest => p ++ ";" ++ joinSemicolon (q :: rest)

/-- Model of Python's `os.path.join(a, b)` on POSIX for two components: an
absolute second component replaces the first entirely; otherwise the parts are
concatenated, inserting `/` unless `a` is empty or already ends in `/`. -/
def osPathJoin (a b : String) : String :=
  if chListIsPref ("/".data) b.data then b
  else if (a == "") || (a.data.getLast? == some '/') then a ++ b
  else a ++ "/" ++ b

/-! ## Configuration and scratch-file paths (`main.py` lines 17-22, 123-125,
198-202) -/

/-- `TEMP_FILES_DIR = "temp_files"`. -/
def TEMP_FILES_DIR : String := "temp_files"

/-- `TIKTOK_REELS_WIDTH = 720`. -/
def TIKTOK_REELS_WIDTH : Nat := 720

/-- `TIKTOK_REELS_HEIGHT = 1280`. -/
def TIKTOK_REELS_HEIGHT : Nat := 1280

/-- `image_temp_path = os.path.join(TEMP_FILES_DIR, f"input_image_{request_id}.png")`
from `generate_clip_endpoint`; `request_id` is the caller-supplied `id` when
present, else a generated UUID. -/
def image_temp_path (request_id : String) : String :=
  osPathJoin TEMP_FILES_DIR ("input_image_" ++ request_id ++ ".png")

/-- `output_video_path = os.path.join(TEMP_FILES_DIR, f"tiktok_clip_{request_id}.mp4")`
from `generate_clip_endpoint`. -/
def clip_output_path (request_id : String) : String :=
  osPathJoin TEMP_FILES_DIR ("tiktok_clip_" ++ request_id ++ ".mp4")

/-- `concat_list_path = os.path.join(TEMP_FILES_DIR, f"concat_list_{process_id}.txt")`
from `process_clips_endpoint`. -/
def concat_list_path (process_id : String) : String :=
  osPathJoin TEMP_FILES_DIR ("concat_list_" ++ process_id ++ ".txt")

/-- `voice_over_temp_path = os.path.join(TEMP_FILES_DIR, f"voiceover_{process_id}.mp3")`
from `process_clips_endpoint`. -/
def voice_over_temp_path (process_id : String) : String :=
  osPathJoin TEMP_FILES_DIR ("voiceover_" ++ process_id ++ ".mp3")

/-- `output_video_path = os.path.join(TEMP_FILES_DIR, request.output_filename
if request.output_filename else f"final_reel_{process_id}.mp4")` from
`process_clips_endpoint`. -/
def output_video_path (process_id : String) (output_filename : Option String) : String :=
  osPathJoin TEMP_FILES_DIR (output_filename.getD ("final_reel_" ++ process_id ++ ".mp4"))

/-- A path lies inside the `temp_files` directory: it starts with
`temp_files/` and contains no `..` segment that could climb back out. -/
def insideTempDir (p : String) : Bool :=
  chListIsPref ("temp_files/".data) p.data && !(chListHasSub ("..".data) p.data)

/-! ## Request data model (`main.py` lines 26-73)

Times and the zoom speed are modelled as rationals: the pydantic fields are
floats, but every comparison the code performs on them is exact. -/

/-- `ClipInfo`: one existing clip referenced by `process-clips` (line 36-40). -/
structure ClipInfo where
  filename : String
deriving DecidableEq, Repr

/-- `SubtitleEntry` (lines 45-63): text with a start and end time. -/
structure SubtitleEntry where
  text : String
  start_time : ℚ
  end_time : ℚ
deriving DecidableEq, Repr

/-- `ProcessClipsRequest` (lines 66-73). -/
structure ProcessClipsRequest where
  clips : List ClipInfo
  voice_over_audio_url : Option String
  subtitles : List SubtitleEntry
  output_filename : Option String
deriving DecidableEq, Repr

/-- The validation pydantic actually runs on a `SubtitleEntry`: the declared
field constraints `min_length=1` on `text`, `ge=0` on `start_time` and `gt=0`
on `end_time` (lines 49-51).  The cross-field check `end_time > start_time`
in `validate_times` (lines 60-62) is installed as `model_post_init` by
`__init_subclass__`, which Python only invokes when a *subclass* of
`SubtitleEntry` is defined; no subclass exists, so that check never runs for
`SubtitleEntry` itself. -/
def validSubtitleEntry (e : SubtitleEntry) : Bool :=
  decide (1 ≤ e.text.length) && decide (0 ≤ e.start_time) && decide (0 < e.end_time)

/-! ## The download step (`main.py` lines 134-139 and 216-222)

Both endpoints download with `httpx`: `response.raise_for_status()` raises
`httpx.HTTPStatusError` for any non-2xx status, and otherwise the body is
written to the scratch file unconditionally — the code inspects nothing else
about the payload. -/

/-- Result of one download: either the body persisted to disk, or the
`HTTPStatusError` for a non-success status. -/
inductive DownloadResult where
  | ok (body : List Nat)
  | httpError (status : Nat)
deriving DecidableEq, Repr

/-- The download step of both endpoints: fail on a non-2xx status, otherwise
persist the payload bytes, whatever they are. -/
def downloadToFile (status : Nat) (body : List Nat) : DownloadResult :=
  if 200 ≤ status ∧ status < 300 then .ok body else .httpError status

/-! ## The encoder invocation (`main.py` lines 77-95 and 170-175) -/

/-- Result of one `ffmpeg` run as the endpoints see it. -/
inductive RenderResult where
  | ok
  | renderError (returncode : Int)
deriving DecidableEq, Repr

/-- `run_ffmpeg_command` raises `HTTPException(500)` exactly when the process
exits with a non-zero code (lines 90-93); on success its return value is
ignored. -/
def run_ffmpeg_command (returncode : Int) : RenderResult :=
  if returncode ≠ 0 then .renderError returncode else .ok

/-- What `generate_clip_endpoint` does after the encode (lines 171-175): it
awaits `run_ffmpeg_command` and, when that did not raise, returns the output
file as a `FileResponse` without inspecting it.  `outputBytes`, the size of
the produced file, is accepted here to record that the code never reads it:
no empty-output check exists anywhere in `main.py`. -/
def generateClipRender (returncode : Int) (outputBytes : Nat) : RenderResult :=
  run_ffmpeg_command returncode

/-! ## The `-vf` filter chain of `generate_clip_endpoint` (lines 150-168)

The code passes one `-vf` argument holding two comma-chained filters: a
`scale` to the target resolution with `force_original_aspect_ratio=increase`,
then a `zoompan` at the target size.  `zoomSpeed` stands for the decimal
rendering of `request.zoom_speed` that the f-string interpolates. -/

/-- The first filter:
`scale={W}:{H}:force_original_aspect_ratio=increase`. -/
def scaleFilter : String :=
  "scale=" ++ toString TIKTOK_REELS_WIDTH ++ ":" ++ toString TIKTOK_REELS_HEIGHT ++
    ":force_original_aspect_ratio=increase"

/-- The second filter:
`zoompan=z='min(zoom+{zoom_speed}*on,1.5)':x='iw/2-(iw/zoom/2)':y='ih/2-(ih/zoom/2)':d=1:s='{W}x{H}'`. -/
def zoompanFilter (zoomSpeed : String) : String :=
  "zoompan=z=\x27min(zoom+" ++ zoomSpeed ++
    "*on,1.5)\x27:x=\x27iw/2-(iw/zoom/2)\x27:y=\x27ih/2-(ih/zoom/2)\x27:d=1:s=\x27" ++
    toString TIKTOK_REELS_WIDTH ++ "x" ++ toString TIKTOK_REELS_HEIGHT ++ "\x27"

/-- The `-vf` value as a chain of its comma-separated filters, in order. -/
def vfChain (zoomSpeed : String) : List String :=
  [scaleFilter, zoompanFilter zoomSpeed]

/-- The literal `-vf` argument string the command carries. -/
def vfArg (zoomSpeed : String) : String :=
  scaleFilter ++ "," ++ zoompanFilter zoomSpeed

/-- A filter of a chain is a `pad` filter when its text starts with `pad`. -/
def filterIsPad (f : String) : Bool := chListIsPref ("pad".data) f.data

/-- Whether any filter of the chain pads the frame. -/
def chainUsesPad (chain : List String) : Bool := chain.any filterIsPad

/-! ## The zoom recurrence denoted by the `zoompan` expression

`z='min(zoom+{zoom_speed}*on,1.5)'` is evaluated by the external engine once
per output frame; per its documented expression semantics, `on` is the output
frame index and `zoom` is the zoom value of the previous evaluation, starting
at 1.  `zoomAt speed n` is that recurrence at frame `n`. -/

/-- Per-frame zoom factor: `zoomAt speed n = min (previous + speed * n) 1.5`,
with the initial `zoom` register at 1. -/
def zoomAt (speed : ℚ) : Nat → ℚ
  | 0 => min (1 + speed * 0) (3/2)
  | n + 1 => min (zoomAt speed n + speed * ((n : ℚ) + 1)) (3/2)

/-! ## The `process-clips` pipeline (`main.py` lines 198-308)

`render` stands for Python's `str` on the float times that the f-strings
interpolate; the builder is parametric in it. -/

/-- Python's `text.replace("'", "'\\''")` on the character list: each
apostrophe is replaced by the four characters of an escaped apostrophe
(line 268). -/
def escapeChars : List Char → List Char
  | [] => []
  | c :: rest => (if c == '\x27' then ("\x27\\\x27\x27").data else [c]) ++ escapeChars rest

/-- `escaped_text = sub.text.replace("'", "'\\''")` (line 268). -/
def escapeSubtitleText (s : String) : String := String.mk (escapeChars s.data)

/-- The stream label `[v_temp{i}]` used between chained drawtext filters. -/
def vTemp (i : Nat) : String := "[v_temp" ++ toString i ++ "]"

/-- The enable clause `enable='between(t,{sub.start_time},{sub.end_time})'`
of one drawtext filter (lines 274/278). -/
def drawtextEnable (render : ℚ → String) (s : SubtitleEntry) : String :=
  "enable=\x27between(t," ++ render s.start_time ++ "," ++ render s.end_time ++ ")\x27"

/-- The `i`-th drawtext filter of the chain (lines 266-279): input label
`[0:v]` for the first entry, `[v_temp{i-1}]` afterwards, output label
`[v_temp{i}]`. -/
def drawtextFilter (render : ℚ → String) (i : Nat) (s : SubtitleEntry) : String :=
  (if i = 0 then "[0:v]" else vTemp (i - 1)) ++
    ("drawtext=text=\x27" ++ escapeSubtitleText s.text ++
      "\x27:x=(w-text_w)/2:y=h-50:fontsize=48:fontcolor=white:borderw=2:bordercolor=black:" ++
      drawtextEnable render s ++ vTemp i)

/-- The drawtext filters produced by `for i, sub in enumerate(request.subtitles)`
starting at index `i`. -/
def drawtextParts (render : ℚ → String) (i : Nat) : List SubtitleEntry → List String
  | [] => []
  | s :: rest => drawtextFilter render i s :: drawtextParts render (i + 1) rest

/-- The amix filter appended when a voice-over is present (line 257):
`current_audio_input` is `[0:a]` and `input_index_counter` is 1 there. -/
def amixFilter : String :=
  "[0:a][1:a]amix=inputs=2:duration=longest[mixed_audio]"

/-- `filter_complex_parts` after the voice-over and subtitle sections
(lines 244-280). -/
def filterComplexParts (render : ℚ → String) (hasVoiceOver : Bool)
    (subs : List SubtitleEntry) : List String :=
  (if hasVoiceOver then [amixFilter] else []) ++ drawtextParts render 0 subs

/-- `current_video_input` at the mapping step (lines 249, 280). -/
def currentVideoLabel (subs : List SubtitleEntry) : String :=
  if subs.isEmpty then "[0:v]" else vTemp (subs.length - 1)

/-- `current_audio_input` at the mapping step (lines 250, 258). -/
def currentAudioLabel (hasVoiceOver : Bool) : String :=
  if hasVoiceOver then "[mixed_audio]" else "[0:a]"

/-- `map_options` (lines 283-284): note each option is appended as ONE list
element, `f"-map {label}"`. -/
def mapOptions (hasVoiceOver : Bool) (subs : List SubtitleEntry) : List String :=
  ["-map " ++ currentVideoLabel subs, "-map " ++ currentAudioLabel hasVoiceOver]

/-- `ffmpeg_inputs` (lines 241, 255). -/
def ffmpegInputs (process_id : String) (hasVoiceOver : Bool) : List String :=
  ["-f", "concat", "-safe", "0", "-i", concat_list_path process_id] ++
    (if hasVoiceOver then ["-i", voice_over_temp_path process_id] else [])

/-- The trailing output options (lines 295-305). -/
def outputOptions (process_id : String) (output_filename : Option String) : List String :=
  ["-c:v", "libx264", "-preset", "medium", "-crf", "23", "-pix_fmt", "yuv420p",
   "-c:a", "aac", "-b:a", "192k", "-movflags", "+faststart", "-y",
   output_video_path process_id output_filename]

/-- `final_command` (lines 286-305) as handed to `run_ffmpeg_command`. -/
def finalCommand (render : ℚ → String) (process_id : String)
    (req : ProcessClipsRequest) : List String :=
  ffmpegInputs process_id req.voice_over_audio_url.isSome ++
    (if (filterComplexParts render req.voice_over_audio_url.isSome req.subtitles).isEmpty
      then []
      else ["-filter_complex",
            joinSemicolon (filterComplexParts render req.voice_over_audio_url.isSome req.subtitles)]) ++
    mapOptions req.voice_over_audio_url.isSome req.subtitles ++
    outputOptions process_id req.output_filename

/-- The concat-list loop (lines 228-234): clips are visited in list order;
each is checked with `os.path.exists`, an absent one raises
`HTTPException(400, "Clip file not found: {filename}...")` immediately (the
error carries the clip's filename), and an existing one contributes the line
`file '{filename}'\n`.  `fileExists` stands for `os.path.exists`. -/
def concatStep (fileExists : String → Bool) : List ClipInfo → Except String (List String)
  | [] => .ok []
  | c :: rest =>
    if fileExists c.filename then
      match concatStep fileExists rest with
      | .ok lines => .ok (("file \x27" ++ c.filename ++ "\x27\n") :: lines)
      | .error e => .error e
    else .error c.filename

/-- The `process-clips` pipeline up to the encoder call: building the concat
list either fails with the first missing clip's name — before any `ffmpeg`
invocation, so no encode is performed — or succeeds, and only then is
`final_command` built and handed to `run_ffmpeg_command` (lines 228-308). -/
def processClipsCommand (fileExists : String → Bool) (render : ℚ → String)
    (process_id : String) (req : ProcessClipsRequest) : Except String (List String) :=
  match concatStep fileExists req.clips with
  | .error e => .error e
  | .ok _ => .ok (finalCommand render process_id req)

/-! ## Structured view of the subtitle overlay chain (lines 261-280)

For the claims about the overlay semantics, the same enumerate-loop is viewed
as a list of drawtext stages with their wiring and parameters. -/

/-- One drawtext stage: its input and output stream labels, the text it
renders (before filter-syntax escaping), the position expressions, and the
enable window. -/
structure DrawtextNode where
  input : String
  output : String
  text : String
  xExpr : String
  yExpr : String
  start_time : ℚ
  end_time : ℚ
deriving DecidableEq, Repr

/-- The stage the loop body builds for index `i` (lines 272-279):
`x=(w-text_w)/2`, `y=h-50`, enabled between the entry's times. -/
def drawtextNode (i : Nat) (s : SubtitleEntry) : DrawtextNode :=
  { input := if i = 0 then "[0:v]" else vTemp (i - 1)
    output := vTemp i
    text := s.text
    xExpr := "(w-text_w)/2"
    yExpr := "h-50"
    start_time := s.start_time
    end_time := s.end_time }

/-- The stages of the chain, from index `i`. -/
def drawtextNodes (i : Nat) : List SubtitleEntry → List DrawtextNode
  | [] => []
  | s :: rest => drawtextNode i s :: drawtextNodes (i + 1) rest

/-- The chain is linked: every stage after the first reads the stream the
previous stage wrote. -/
def chainLinked : List DrawtextNode → Bool
  | [] => true
  | [_] => true
  | a :: b :: rest => (b.input == a.output) && chainLinked (b :: rest)

/-- When the burned-in text of entry `s` is visible at time `t`: the emitted
enable clause is `between(t,start,end)`, and the engine's documented
`between(x, min, max)` is 1 iff `min ≤ x ≤ max` — inclusive at both ends. -/
def visibleAt (s : SubtitleEntry) (t : ℚ) : Bool :=
  decide (s.start_time ≤ t) && decide (t ≤ s.end_time)

/-! ## Cleanup scheduling (`main.py` lines 100-107, 127-129, 204-208)

Both endpoints register `cleanup_file` calls with `background_tasks.add_task`
before doing any work.  FastAPI background tasks run immediately after the
response is sent: `add_task` takes no delay, and neither `cleanup_file` nor
anything else in `main.py` sleeps or schedules a timer. -/

/-- One registered background deletion: the path it will remove and the delay,
in seconds after the response, that the scheduling mechanism guarantees
before running it.  `add_task` provides no delay, so the field is 0 for every
task the code registers. -/
structure ScheduledCleanup where
  path : String
  delaySeconds : ℚ
deriving DecidableEq, Repr

/-- The cleanup tasks `generate_clip_endpoint` registers (lines 127-129): the
downloaded image and the rendered clip, each to be deleted right after the
response with no retention delay. -/
def generate_clip_cleanup (request_id : String) : List ScheduledCleanup :=
  [⟨image_temp_path request_id, 0⟩, ⟨clip_output_path request_id, 0⟩]

/-- `cleanup_file` (lines 100-107) acting on a filesystem modelled as the
list of existing paths: if the path exists it is removed, otherwise nothing
happens and no error is raised. -/
def cleanup_file (fs : List String) (filepath : String) : List String :=
  if fs.contains filepath then fs.erase filepath else fs

/-- The cleanup tasks `process_clips_endpoint` registers before its `try`
block (lines 204-208): the concat list and the final video.  The conditional
registration at lines 206-207 tests `voice_over_temp_path`, which is still
`None` at that point (line 201), so its branch — transcribed here as the
match on `none` — contributes nothing: it is dead code, and no voice-over
cleanup is registered eagerly. -/
def process_clips_eager_cleanup (process_id : String)
    (output_filename : Option String) : List ScheduledCleanup :=
  [⟨concat_list_path process_id, 0⟩] ++
    (match (none : Option String) with
      | some vo => [⟨vo, 0⟩]
      | none => []) ++
    [⟨output_video_path process_id output_filename, 0⟩]

/-- All cleanup tasks a `process-clips` request has registered once it is past
the voice-over stage (lines 204-221): the eager registrations, plus the
voice-over scratch file — but the latter only when a voice-over URL is
present *and* its download succeeded, because that registration happens at
line 221, after the download inside the `try` block.  When there is no
voice-over URL, or the download raises before line 221
(`voDownloadOk = false`), the voice-over file is never registered. -/
def process_clips_cleanup (process_id : String) (req : ProcessClipsRequest)
    (voDownloadOk : Bool) : List ScheduledCleanup :=
  process_clips_eager_cleanup process_id req.output_filename ++
    (if req.voice_over_audio_url.isSome && voDownloadOk then
      [⟨voice_over_temp_path process_id, 0⟩]
    else [])

/-- Which registered tasks actually execute, per the framework's documented
semantics for the injected `BackgroundTasks` that `main.py` relies on
exclusively: the tasks run immediately after the response that carries them
is sent, and when the endpoint raises — `HTTPException` or otherwise — the
exception handler's error response carries no background tasks, so none of
them run. -/
def tasksRun (requestSucceeded : Bool) (tasks : List ScheduledCleanup) :
    List ScheduledCleanup :=
  if requestSucceeded then tasks else []

/-! ## Helper lemmas -/

/-- A pattern is a prefix of itself followed by anything. -/
lemma chListIsPref_self_append (pat r : List Char) : chListIsPref pat (pat ++ r) = true := by
  induction pat with
  | nil => rfl
  | cons a as ih => simp [chListIsPref, ih]

/-- A list that starts with `/` has `/` as its head. -/
lemma head_of_slash_pref {l : List Char} (h : chListIsPref ("/".data) l = true) :
    l.head? = some '/' := by
  cases l with
  | nil => exact absurd h (by decide)
  | cons b bs =>
    simp [chListIsPref] at h
    subst h
    rfl

/-- A two-character pattern absent from both halves of an append, and not
straddling the seam, is absent from the append. -/
lemma chListHasSub_two_append {a b : Char} {l r : List Char}
    (hl : chListHasSub [a, b] l = false) (hr : chListHasSub [a, b] r = false)
    (hb : ¬(l.getLast? = some a ∧ r.head? = some b)) :
    chListHasSub [a, b] (l ++ r) = false := by
  induction l with
  | nil => simpa using hr
  | cons c l' ih =>
    simp only [chListHasSub, Bool.or_eq_false_iff] at hl
    obtain ⟨hl1, hl2⟩ := hl
    have hb' : ¬(l'.getLast? = some a ∧ r.head? = some b) := by
      cases l' with
      | nil => rintro ⟨hx, _⟩; simp at hx
      | cons d l'' =>
        intro hx
        exact hb ⟨by simpa [List.getLast?_cons_cons] using hx.1, hx.2⟩
    have hrec : chListHasSub [a, b] (l' ++ r) = false := ih hl2 hb'
    have hpref : chListIsPref [a, b] (c :: (l' ++ r)) = false := by
      cases l' with
      | nil =>
        cases r with
        | nil => simp [chListIsPref]
        | cons e r' =>
          simp only [chListIsPref, List.nil_append, Bool.and_eq_false_iff]
          by_cases hac : a = c
          · right
            by_cases hbe : b = e
            · exact absurd ⟨by simp [hac], by simp [hbe]⟩ hb
            · simp [chListIsPref, hbe]
          · left; simp [hac]
      | cons d l'' =>
        simp only [chListIsPref, Bool.and_eq_false_iff] at hl1 ⊢
        rcases hl1 with h1 | h1
        · left; exact h1
        · right; simpa [chListIsPref] using h1
    simp [chListHasSub, hpref, hrec]

/-- Every drawtext chain the loop builds is linked: each stage reads the
stream written by the stage before it. -/
lemma drawtextNodes_chain (subs : List SubtitleEntry) :
    ∀ i, chainLinked (drawtextNodes i subs) = true := by
  induction subs with
  | nil => intro i; rfl
  | cons s rest ih =>
    intro i
    cases rest with
    | nil => rfl
    | cons s2 r2 =>
      show (((drawtextNode (i + 1) s2).input == (drawtextNode i s).output) &&
          chainLinked (drawtextNodes (i + 1) (s2 :: r2))) = true
      rw [ih (i + 1)]
      simp [drawtextNode]

/-- The chain renders the entries' texts in list order. -/
lemma drawtextNodes_texts (subs : List SubtitleEntry) :
    ∀ i, (drawtextNodes i subs).map DrawtextNode.text = subs.map SubtitleEntry.text := by
  induction subs with
  | nil => intro i; rfl
  | cons s rest ih => intro i; simp [drawtextNodes, drawtextNode, ih]

/-- The last stage of a non-empty chain writes `[v_temp{i + n - 1}]`. -/
lemma drawtextNodes_last (subs : List SubtitleEntry) :
    ∀ i, subs ≠ [] →
      ((drawtextNodes i subs).getLast?.map DrawtextNode.output) =
        some (vTemp (i + subs.length - 1)) := by
  induction subs with
  | nil => intro i h; exact absurd rfl h
  | cons s rest ih =>
    intro i _
    cases rest with
    | nil => simp [drawtextNodes, drawtextNode]
    | cons s2 r2 =>
      have h2 := ih (i + 1) (by simp)
      have e1 : drawtextNodes i (s :: s2 :: r2) =
          drawtextNode i s :: drawtextNodes (i + 1) (s2 :: r2) := rfl
      rw [e1]
      have e2 : drawtextNodes (i + 1) (s2 :: r2) =
          drawtextNode (i + 1) s2 :: drawtextNodes (i + 2) r2 := rfl
      rw [e2, List.getLast?_cons_cons, ← e2, h2]
      congr 2
      simp
      omega

/-- Every stage of the chain centers its text and anchors it 50 pixels above
the bottom. -/
lemma drawtextNodes_xy (subs : List SubtitleEntry) :
    ∀ i, ((drawtextNodes i subs).all fun n =>
      (n.xExpr == "(w-text_w)/2") && (n.yExpr == "h-50")) = true := by
  induction subs with
  | nil => intro i; rfl
  | cons s rest ih => intro i; simp [drawtextNodes, drawtextNode, ih]

/-! ## Claim C5 — SubtitleEntry end_time > start_time validation -/

/-- C5: the claim says a request containing a `SubtitleEntry` with
`end_time ≤ start_time` is rejected with a `ValidationError` before any
processing, and the code's own comment says "Ensure end_time is always
greater than start_time" — but the validation that pydantic actually runs
accepts the entry `{text := "x", start_time := 5, end_time := 3}`: only the
per-field constraints are checked, because the cross-field validator is
installed by `__init_subclass__` and so never applies to `SubtitleEntry`
itself.  The code contradicts its own stated intent: a code bug. -/
theorem C5_accepts_inverted_times :
    validSubtitleEntry ⟨"x", 5, 3⟩ = true ∧ ¬ ((5:ℚ) < 3) := by
  refine ⟨?_, by norm_num⟩
  decide

/-! ## Claim C3 — no minimum-size check on downloads -/

/-- C3 counterexample: the claim says an empty downloaded payload fails with
`InvalidContentError` instead of being persisted as media; but the download
step of both endpoints persists an empty body delivered with status 200 —
`main.py` checks only the HTTP status, never the payload size. -/
theorem C3_counterexample : downloadToFile 200 [] = DownloadResult.ok [] := by decide

/-- C3 amended: a download succeeds — persisting the payload exactly as
received, with no minimum-size or emptiness check — if and only if the HTTP
status is a 2xx success; any other status raises `httpx.HTTPStatusError`. -/
theorem C3_amended (status : Nat) (body : List Nat) :
    downloadToFile status body = DownloadResult.ok body ↔ (200 ≤ status ∧ status < 300) := by
  unfold downloadToFile
  split_ifs with h
  · simp [h]
  · simp [h]

/-! ## Claim C9 — render failure conditions -/

/-- C9 counterexample: the claim says a render fails with `RenderError` also
when the encoder produces an empty/zero-byte output; but after an exit code
of 0 the endpoint returns the output file without looking at it, so a
zero-byte output (size 0) is served as success. -/
theorem C9_counterexample : generateClipRender 0 0 = RenderResult.ok := by decide

/-- C9 amended: the render fails if and only if the encoder exits non-zero
(`run_ffmpeg_command` raises `HTTPException(500)` exactly then); no
empty-output check exists, so the produced file's size never affects the
outcome. -/
theorem C9_amended (returncode : Int) (outputBytes : Nat) :
    generateClipRender returncode outputBytes = RenderResult.ok ↔ returncode = 0 := by
  unfold generateClipRender run_ffmpeg_command
  split_ifs with h
  · simp [h]
  · simp [not_not.mp h]

/-! ## Claim C4 — scale-then-pad versus scale-to-fill-then-crop -/

/-- C4 counterexample: the claim says the target resolution is achieved by
aspect-preserving scale followed by padding with black to the exact target
dimensions; but the `-vf` chain built for the default zoom speed contains no
`pad` filter at all — it scales with `force_original_aspect_ratio=increase`
(fill, possibly overflowing one dimension) and hands the result to `zoompan`,
which crops to the target size. -/
theorem C4_counterexample :
    chainUsesPad (vfChain "0.003") = false ∧
      strHasSub scaleFilter "force_original_aspect_ratio=increase" = true := by
  exact ⟨rfl, by decide⟩

/-- C4 amended: for every rendered zoom speed, the filter chain is the
`scale` filter with `force_original_aspect_ratio=increase` followed by the
`zoompan` filter at the target size; no filter of the chain pads the frame,
so overflow content is cropped rather than padded. -/
theorem C4_amended (zoomSpeed : String) :
    chainUsesPad (vfChain zoomSpeed) = false ∧
      strHasSub scaleFilter "force_original_aspect_ratio=increase" = true ∧
      vfArg zoomSpeed = scaleFilter ++ "," ++ zoompanFilter zoomSpeed := by
  exact ⟨rfl, by decide, rfl⟩

/-! ## Claim C6 — the per-frame zoom factor -/

/-- C6 counterexample: the claim says the zoom increases by `zoom_speed` per
frame; but the expression `min(zoom+{zoom_speed}*on,1.5)` adds
`zoom_speed * on` (the speed times the frame index) at frame `on`, so at
zoom speed 1/10 the value after frame 2 is 13/10, not the 12/10 that a
per-frame increment of 1/10 would give. -/
theorem C6_counterexample :
    zoomAt (1/10) 2 ≠ min (zoomAt (1/10) 1 + 1/10) (3/2) := by
  norm_num [zoomAt, min_def]

/-- C6 amended: for every non-negative zoom speed the per-frame zoom factor
starts at 1, is monotonically non-decreasing — increasing by
`zoom_speed * frame_index`, clamped — never exceeds the cap 3/2, and is
constantly 1 when the zoom speed is 0 (a static, non-zooming output). -/
theorem C6_amended (speed : ℚ) (h : 0 ≤ speed) (n : Nat) :
    zoomAt speed 0 = 1 ∧ zoomAt speed n ≤ zoomAt speed (n + 1) ∧
      zoomAt speed n ≤ 3/2 ∧ zoomAt 0 n = 1 := by
  have hcap : ∀ m : Nat, zoomAt speed m ≤ 3/2 := by
    intro m
    cases m with
    | zero => simp [zoomAt]
    | succ k => simp [zoomAt]
  refine ⟨by norm_num [zoomAt], ?_, hcap n, ?_⟩
  · have hstep : zoomAt speed n ≤ zoomAt speed n + speed * ((n : ℚ) + 1) := by
      have hnn : 0 ≤ speed * ((n : ℚ) + 1) := by positivity
      linarith
    calc zoomAt speed n ≤ min (zoomAt speed n + speed * ((n : ℚ) + 1)) (3/2) :=
          le_min hstep (hcap n)
      _ = zoomAt speed (n + 1) := rfl
  · induction n with
    | zero => norm_num [zoomAt]
    | succ m ih =>
      rw [show zoomAt 0 (m + 1) = min (zoomAt 0 m + 0 * ((m : ℚ) + 1)) (3/2) from rfl, ih]
      norm_num [min_def]

/-- C6 amended, witnessed at zoom speed 1/10 and frame 2. -/
theorem C6_amended_witness :
    (0:ℚ) ≤ 1/10 ∧
      (zoomAt (1/10) 0 = 1 ∧ zoomAt (1/10) 2 ≤ zoomAt (1/10) 3 ∧
        zoomAt (1/10) 2 ≤ 3/2 ∧ zoomAt 0 2 = 1) :=
  ⟨by norm_num, C6_amended (1/10) (by norm_num) 2⟩

/-! ## Claim C1 — cleanup scheduling, the retention delay, and failure -/

/-- C1 counterexample: the claim says each artifact file is removed at-or-after
a fixed retention delay (e.g. one hour = 3600 seconds) elapses, and that this
removal happens even if the request failed midway.  Both parts fail on the
code: the cleanup tasks `generate_clip_endpoint` registers carry no delay at
all — `background_tasks.add_task(cleanup_file, path)` takes no delay and
nothing in `main.py` sleeps or sets a timer — so no scheduled cleanup waits
3600 seconds; and when the request fails, none of the registered tasks is
executed (`tasksRun false`), because the error response the exception handler
returns carries no background tasks — so the artifacts the failed request
created are not removed at all. -/
theorem C1_counterexample :
    (((generate_clip_cleanup "id0").all fun t => decide ((3600:ℚ) ≤ t.delaySeconds)) = false) ∧
      tasksRun false (generate_clip_cleanup "id0") = [] := by
  exact ⟨by decide, rfl⟩

/-- C1 amended: every artifact path either endpoint creates is registered for
deletion with delay 0, to run immediately after the response rather than after
a retention window — `generate-clip` registers the downloaded image and the
rendered clip before any fallible work, and `process-clips` registers the
concat list and the final video before any fallible work; the voice-over
scratch file, however, is registered only after its download succeeds (the
pre-`try` conditional registration is dead code), so a download that raises
leaves it unregistered.  Registered tasks all execute after a successful
response, and none executes when the request fails midway — so removal is
not guaranteed on failure.  The deletion itself is idempotent: `cleanup_file`
removes an existing path, and a missing path is left alone without error. -/
theorem C1_amended (request_id process_id : String) (req : ProcessClipsRequest)
    (fs : List String) (p : String) (hnd : fs.Nodup) :
    ((generate_clip_cleanup request_id).map ScheduledCleanup.path =
        [image_temp_path request_id, clip_output_path request_id] ∧
      (generate_clip_cleanup request_id).map ScheduledCleanup.delaySeconds = [0, 0]) ∧
      ((process_clips_eager_cleanup process_id req.output_filename).map ScheduledCleanup.path =
        [concat_list_path process_id, output_video_path process_id req.output_filename] ∧
      ((process_clips_cleanup process_id req true).all fun t =>
        decide (t.delaySeconds = 0)) = true ∧
      (req.voice_over_audio_url.isSome = true →
        (⟨voice_over_temp_path process_id, 0⟩ : ScheduledCleanup) ∈
          process_clips_cleanup process_id req true) ∧
      process_clips_cleanup process_id req false =
        process_clips_eager_cleanup process_id req.output_filename) ∧
      (tasksRun true (process_clips_cleanup process_id req true) =
        process_clips_cleanup process_id req true ∧
      tasksRun false (process_clips_cleanup process_id req true) = [] ∧
      tasksRun false (generate_clip_cleanup request_id) = []) ∧
      (p ∉ cleanup_file fs p ∧
      (fs.contains p = false → cleanup_file fs p = fs)) := by
  refine ⟨⟨rfl, rfl⟩, ⟨rfl, ?_, ?_, ?_⟩, ⟨rfl, rfl, rfl⟩, ?_, ?_⟩
  · cases hvo : req.voice_over_audio_url.isSome with
    | false =>
      simp [process_clips_cleanup, process_clips_eager_cleanup, hvo]
    | true =>
      simp [process_clips_cleanup, process_clips_eager_cleanup, hvo]
  · intro hvo
    simp [process_clips_cleanup, hvo]
  · simp [process_clips_cleanup]
  · by_cases hc : fs.contains p
    · simp only [cleanup_file, hc, if_true]
      intro hm
      exact ((List.Nodup.mem_erase_iff hnd).mp hm).1 rfl
    · simp only [cleanup_file, hc, if_false]
      intro hm
      exact hc (by simpa [List.elem_iff] using hm)
  · intro hc
    unfold cleanup_file
    rw [hc]
    simp

/-- C1 amended, witnessed on a process-clips request that carries a voice-over
URL and on a one-file filesystem that does not hold the deleted path. -/
theorem C1_amended_witness :
    (["a"] : List String).Nodup ∧
      (((generate_clip_cleanup "id0").map ScheduledCleanup.path =
          [image_temp_path "id0", clip_output_path "id0"] ∧
        (generate_clip_cleanup "id0").map ScheduledCleanup.delaySeconds = [0, 0]) ∧
        ((process_clips_eager_cleanup "p0"
            (⟨[⟨"a.mp4"⟩], some "http://a/vo.mp3", [], none⟩ :
              ProcessClipsRequest).output_filename).map ScheduledCleanup.path =
          [concat_list_path "p0", output_video_path "p0"
            (⟨[⟨"a.mp4"⟩], some "http://a/vo.mp3", [], none⟩ :
              ProcessClipsRequest).output_filename] ∧
        ((process_clips_cleanup "p0"
            ⟨[⟨"a.mp4"⟩], some "http://a/vo.mp3", [], none⟩ true).all fun t =>
          decide (t.delaySeconds = 0)) = true ∧
        ((⟨[⟨"a.mp4"⟩], some "http://a/vo.mp3", [], none⟩ :
            ProcessClipsRequest).voice_over_audio_url.isSome = true →
          (⟨voice_over_temp_path "p0", 0⟩ : ScheduledCleanup) ∈
            process_clips_cleanup "p0"
              ⟨[⟨"a.mp4"⟩], some "http://a/vo.mp3", [], none⟩ true) ∧
        process_clips_cleanup "p0" ⟨[⟨"a.mp4"⟩], some "http://a/vo.mp3", [], none⟩ false =
          process_clips_eager_cleanup "p0"
            (⟨[⟨"a.mp4"⟩], some "http://a/vo.mp3", [], none⟩ :
              ProcessClipsRequest).output_filename) ∧
        (tasksRun true (process_clips_cleanup "p0"
            ⟨[⟨"a.mp4"⟩], some "http://a/vo.mp3", [], none⟩ true) =
          process_clips_cleanup "p0" ⟨[⟨"a.mp4"⟩], some "http://a/vo.mp3", [], none⟩ true ∧
        tasksRun false (process_clips_cleanup "p0"
            ⟨[⟨"a.mp4"⟩], some "http://a/vo.mp3", [], none⟩ true) = [] ∧
        tasksRun false (generate_clip_cleanup "id0") = []) ∧
        ("b" ∉ cleanup_file ["a"] "b" ∧
        ((["a"] : List String).contains "b" = false → cleanup_file ["a"] "b" = ["a"]))) :=
  ⟨by decide, C1_amended "id0" "p0" ⟨[⟨"a.mp4"⟩], some "http://a/vo.mp3", [], none⟩
    ["a"] "b" (by decide)⟩

/-! ## Claim C8 — the subtitle overlay chain -/

/-- C8 counterexample: the claim says each entry's text is visible exactly
during the half-open interval `[start_time, end_time)`; but the emitted
enable clause `between(t,start,end)` is inclusive at both endpoints, so the
entry `{"hello", 0, 2}` is still visible at t = 2, which the half-open
interval excludes. -/
theorem C8_counterexample :
    visibleAt ⟨"hello", 0, 2⟩ 2 = true ∧ ¬ ((0:ℚ) ≤ 2 ∧ (2:ℚ) < 2) := by
  refine ⟨by decide, ?_⟩
  rintro ⟨_, hx⟩
  exact absurd hx (by norm_num)

/-- C8 amended: for every subtitle list, the drawtext stages form a sequential
chain in list order — the first stage reads the concatenated video `[0:v]`,
every later stage reads the stream the previous stage wrote, and the stream
mapped into the output is the last stage's — so on overlapping time ranges
later list entries composite on top of earlier ones; each stage centers its
text horizontally (`x=(w-text_w)/2`) at the fixed bottom offset `y=h-50`; and
each entry's text is visible during the closed interval
`[start_time, end_time]` (inclusive at both ends, not half-open). -/
theorem C8_amended (subs : List SubtitleEntry) (e : SubtitleEntry) (t : ℚ) :
    chainLinked (drawtextNodes 0 subs) = true ∧
      (drawtextNodes 0 subs).map DrawtextNode.text = subs.map SubtitleEntry.text ∧
      ((drawtextNodes 0 subs).head?.map DrawtextNode.input) =
        (if subs.isEmpty then none else some "[0:v]") ∧
      ((drawtextNodes 0 subs).getLast?.map DrawtextNode.output) =
        (if subs.isEmpty then none else some (currentVideoLabel subs)) ∧
      ((drawtextNodes 0 subs).all fun n =>
        (n.xExpr == "(w-text_w)/2") && (n.yExpr == "h-50")) = true ∧
      (visibleAt e t = true ↔ (e.start_time ≤ t ∧ t ≤ e.end_time)) := by
  refine ⟨drawtextNodes_chain subs 0, drawtextNodes_texts subs 0, ?_, ?_, drawtextNodes_xy subs 0, ?_⟩
  · cases subs with
    | nil => rfl
    | cons s rest => simp [drawtextNodes, drawtextNode]
  · cases subs with
    | nil => rfl
    | cons s rest =>
      rw [drawtextNodes_last (s :: rest) 0 (by simp)]
      simp [currentVideoLabel]
  · simp [visibleAt]

/-! ## Claim C7 — first missing clip aborts the join -/

/-- The concat-list loop fails with the filename of the first clip, in list
order, whose file does not exist. -/
lemma concatStep_first_missing (fileExists : String → Bool) :
    ∀ (clips : List ClipInfo) (c : ClipInfo),
      clips.find? (fun k => !(fileExists k.filename)) = some c →
      concatStep fileExists clips = Except.error c.filename := by
  intro clips
  induction clips with
  | nil => intro c h; simp at h
  | cons k rest ih =>
    intro c h
    by_cases hk : fileExists k.filename
    · simp only [List.find?_cons, hk, Bool.not_true, if_false] at h
      have hrec := ih c h
      simp [concatStep, hk, hrec]
    · have hkf : fileExists k.filename = false := by simpa using hk
      simp only [List.find?_cons, hkf, Bool.not_false, if_true, Option.some.injEq] at h
      subst h
      simp [concatStep, hkf]

/-- C7: when some referenced clip path does not exist, `process_clips_endpoint`
fails with the 400 error naming the first absent clip in list order — the
loop raises at that clip, so the remaining clips are not examined, the concat
list is never completed, and `run_ffmpeg_command` is never reached: no encode
is performed (`processClipsCommand` yields an encoder command only in its
`ok` case). -/
theorem C7_first_missing (fileExists : String → Bool) (render : ℚ → String)
    (process_id : String) (req : ProcessClipsRequest) (c : ClipInfo)
    (h : req.clips.find? (fun k => !(fileExists k.filename)) = some c) :
    processClipsCommand fileExists render process_id req = Except.error c.filename := by
  unfold processClipsCommand
  rw [concatStep_first_missing fileExists req.clips c h]

/-- C7, witnessed: of the clips `a.mp4`, `b.mp4`, `c.mp4` only `a.mp4`
exists; the pipeline fails with the error naming `b.mp4`, the first absent
clip, and produces no encoder command. -/
theorem C7_first_missing_witness :
    (([⟨"a.mp4"⟩, ⟨"b.mp4"⟩, ⟨"c.mp4"⟩] : List ClipInfo).find?
        (fun k => !((fun s => s == "a.mp4") k.filename)) = some ⟨"b.mp4"⟩) ∧
      processClipsCommand (fun s => s == "a.mp4") (fun _ => "0") "pid0"
          ⟨[⟨"a.mp4"⟩, ⟨"b.mp4"⟩, ⟨"c.mp4"⟩], none, [], none⟩ = Except.error "b.mp4" :=
  ⟨rfl, C7_first_missing (fun s => s == "a.mp4") (fun _ => "0") "pid0"
    ⟨[⟨"a.mp4"⟩, ⟨"b.mp4"⟩, ⟨"c.mp4"⟩], none, [], none⟩ ⟨"b.mp4"⟩ rfl⟩

/-! ## Claim C10 — confinement of scratch paths to `temp_files` -/

/-- `os.path.join` against `temp_files` with a relative second component. -/
lemma osPathJoin_temp_rel (b : String) (h : chListIsPref ("/".data) b.data = false) :
    osPathJoin "temp_files" b = "temp_files" ++ "/" ++ b := by
  simp [osPathJoin, h]

/-- `os.path.join` discards the directory when the second component is
absolute. -/
lemma osPathJoin_abs (a b : String) (h : chListIsPref ("/".data) b.data = true) :
    osPathJoin a b = b := by
  simp [osPathJoin, h]

/-- C10 counterexample: the claim says every scratch and output path lies
inside the `temp_files` directory even when the caller supplies the
`output_filename`; but `os.path.join` discards the directory entirely for an
absolute filename, so requesting `output_filename = "/etc/passwd"` makes the
output path `/etc/passwd`, outside `temp_files`. -/
theorem C10_counterexample :
    insideTempDir (output_video_path "pid0" (some "/etc/passwd")) = false := by
  decide

/-- C10 amended: the scratch paths are built by joining `temp_files` with a
name that interpolates the caller-supplied value, so confinement holds only
for benign inputs: when the supplied `output_filename` is relative and free
of `..`, the output path stays inside `temp_files`, and when the supplied
`id` is free of `..` and does not end with a dot, the image scratch path
stays inside `temp_files`.  An absolute `output_filename`, or an id
containing `..`, escapes the directory. -/
theorem C10_amended (process_id request_id name : String)
    (h1 : chListIsPref ("/".data) name.data = false)
    (h2 : chListHasSub ("..".data) name.data = false)
    (h3 : chListHasSub ("..".data) request_id.data = false)
    (h4 : request_id.data.getLast? ≠ some '.') :
    insideTempDir (output_video_path process_id (some name)) = true ∧
      insideTempDir (image_temp_path request_id) = true := by
  constructor
  · have e1 : output_video_path process_id (some name) = "temp_files" ++ "/" ++ name := by
      rw [show output_video_path process_id (some name) =
        osPathJoin "temp_files" name from rfl]
      exact osPathJoin_temp_rel name h1
    rw [e1]
    unfold insideTempDir
    have hd : ("temp_files" ++ "/" ++ name).data = ("temp_files/").data ++ name.data := rfl
    rw [hd]
    have hsub : chListHasSub ("..".data) (("temp_files/").data ++ name.data) = false := by
      rw [show ("..".data : List Char) = ['.', '.'] from rfl]
      apply chListHasSub_two_append
      · decide
      · exact h2
      · rintro ⟨ha, _⟩
        exact absurd ha (by decide)
    rw [hsub, chListIsPref_self_append]
    rfl
  · have h0 : chListIsPref ("/".data) (("input_image_" ++ request_id ++ ".png").data) = false :=
      rfl
    have e1 : image_temp_path request_id =
        "temp_files" ++ "/" ++ ("input_image_" ++ request_id ++ ".png") := by
      rw [show image_temp_path request_id =
        osPathJoin "temp_files" ("input_image_" ++ request_id ++ ".png") from rfl]
      exact osPathJoin_temp_rel _ h0
    rw [e1]
    unfold insideTempDir
    have hd : ("temp_files" ++ "/" ++ ("input_image_" ++ request_id ++ ".png")).data =
        ("temp_files/input_image_").data ++ (request_id.data ++ (".png").data) := rfl
    rw [hd]
    have hinner : chListHasSub ("..".data) (request_id.data ++ (".png").data) = false := by
      rw [show ("..".data : List Char) = ['.', '.'] from rfl]
      apply chListHasSub_two_append
      · exact h3
      · decide
      · rintro ⟨ha, _⟩
        exact h4 ha
    have hsub : chListHasSub ("..".data)
        (("temp_files/input_image_").data ++ (request_id.data ++ (".png").data)) = false := by
      rw [show ("..".data : List Char) = ['.', '.'] from rfl]
      apply chListHasSub_two_append
      · decide
      · exact hinner
      · rintro ⟨ha, _⟩
        exact absurd ha (by decide)
    rw [hsub]
    have hpref : chListIsPref ("temp_files/".data)
        (("temp_files/input_image_").data ++ (request_id.data ++ (".png").data)) = true := rfl
    rw [hpref]
    rfl

/-- C10 amended, witnessed with a benign relative output filename and a
benign request id. -/
theorem C10_amended_witness :
    (chListIsPref ("/".data) (("out.mp4" : String)).data = false ∧
      chListHasSub ("..".data) (("out.mp4" : String)).data = false ∧
      chListHasSub ("..".data) (("r0" : String)).data = false ∧
      (("r0" : String)).data.getLast? ≠ some '.') ∧
      (insideTempDir (output_video_path "p0" (some "out.mp4")) = true ∧
        insideTempDir (image_temp_path "r0") = true) :=
  ⟨⟨by decide, by decide, by decide, by decide⟩,
    C10_amended "p0" "r0" "out.mp4" (by decide) (by decide) (by decide) (by decide)⟩

/-! ## Claim C2 — `-map` options are single list elements -/

/-- No string of length other than 4 is the bare flag `-map`. -/
lemma ne_map_of_len (s : String) (h : s.length ≠ 4) : s ≠ "-map" := by
  intro he
  subst he
  exact h rfl

/-- No string whose first character is not `-` is the bare flag `-map`. -/
lemma ne_map_of_head (s : String) (c : Char) (h : s.data.head? = some c) (hc : c ≠ '-') :
    s ≠ "-map" := by
  intro he
  subst he
  have h2 : some '-' = some c := by
    rw [← h]
    rfl
  exact hc (Option.some.inj h2).symm

/-- The final output path is never the bare flag `-map`: either it starts with
`temp_files/` (first character `t`) or, for an absolute caller-supplied
filename, with `/`. -/
lemma output_video_path_ne_map (process_id : String) (name : Option String) :
    output_video_path process_id name ≠ "-map" := by
  cases name with
  | none => exact ne_map_of_head _ 't' rfl (by decide)
  | some s =>
    by_cases habs : chListIsPref ("/".data) s.data = true
    · rw [show output_video_path process_id (some s) = osPathJoin "temp_files" s from rfl,
        osPathJoin_abs _ _ habs]
      exact ne_map_of_head s '/' (head_of_slash_pref habs) (by decide)
    · have hf : chListIsPref ("/".data) s.data = false := by simpa using habs
      rw [show output_video_path process_id (some s) = osPathJoin "temp_files" s from rfl,
        osPathJoin_temp_rel s hf]
      exact ne_map_of_head _ 't' rfl (by decide)

/-- Joining a non-empty list is at least as long as its first element. -/
lemma joinSemicolon_len (p : String) (ps : List String) :
    p.length ≤ (joinSemicolon (p :: ps)).length := by
  cases ps with
  | nil => exact le_refl _
  | cons q t =>
    rw [show joinSemicolon (p :: q :: t) = p ++ ";" ++ joinSemicolon (q :: t) from rfl]
    simp only [String.length_append]
    omega

/-- Every drawtext filter string is at least 5 characters long. -/
lemma drawtextFilter_len (render : ℚ → String) (i : Nat) (s : SubtitleEntry) :
    5 ≤ (drawtextFilter render i s).length := by
  unfold drawtextFilter
  simp only [String.length_append]
  have h15 : ("drawtext=text=\x27" : String).length = 15 := rfl
  omega

/-- The joined `-filter_complex` value of a non-empty filter list is never the
bare flag `-map`. -/
lemma joinSemicolon_parts_ne_map (render : ℚ → String) (b : Bool)
    (subs : List SubtitleEntry)
    (h : (filterComplexParts render b subs).isEmpty = false) :
    joinSemicolon (filterComplexParts render b subs) ≠ "-map" := by
  cases b with
  | true =>
    apply ne_map_of_len
    have h5 : 5 ≤ amixFilter.length := by decide
    have hlen := joinSemicolon_len amixFilter (drawtextParts render 0 subs)
    rw [show filterComplexParts render true subs =
      amixFilter :: drawtextParts render 0 subs from rfl]
    omega
  | false =>
    cases subs with
    | nil => simp [filterComplexParts, drawtextParts] at h
    | cons s rest =>
      apply ne_map_of_len
      have h5 := drawtextFilter_len render 0 s
      have hlen := joinSemicolon_len (drawtextFilter render 0 s) (drawtextParts render 1 rest)
      rw [show filterComplexParts render false (s :: rest) =
        drawtextFilter render 0 s :: drawtextParts render 1 rest from rfl]
      omega

/-- The bare two-element form `-map` never occurs in the final command: every
element either is a fixed option other than `-map`, or is a path starting in
`temp_files/` or `/`, or is a joined filter expression longer than 4
characters, or is a joined `-map {label}` string of length at least 5. -/
lemma map_not_in_finalCommand (render : ℚ → String) (process_id : String)
    (req : ProcessClipsRequest) :
    "-map" ∉ finalCommand render process_id req := by
  intro hmem
  unfold finalCommand at hmem
  rcases List.mem_append.mp hmem with h1 | hout
  · rcases List.mem_append.mp h1 with h2 | hmap
    · rcases List.mem_append.mp h2 with hinp | hfc
      · unfold ffmpegInputs at hinp
        rcases List.mem_append.mp hinp with hbase | hvo
        · simp at hbase
          exact (ne_map_of_head (concat_list_path process_id) 't' rfl (by decide)) hbase.symm
        · cases hb : req.voice_over_audio_url.isSome with
          | false => simp [hb] at hvo
          | true =>
            simp [hb] at hvo
            exact (ne_map_of_head (voice_over_temp_path process_id) 't' rfl (by decide))
              hvo.symm
      · by_cases hemp :
          (filterComplexParts render req.voice_over_audio_url.isSome req.subtitles).isEmpty = true
        · simp [hemp] at hfc
        · have hempf : (filterComplexParts render req.voice_over_audio_url.isSome
              req.subtitles).isEmpty = false := by simpa using hemp
          simp [hempf] at hfc
          exact (joinSemicolon_parts_ne_map render _ _ hempf) hfc.symm
    · unfold mapOptions at hmap
      have hlen5 : ("-map " : String).length = 5 := rfl
      rcases List.mem_cons.mp hmap with h | hmap2
      · refine (ne_map_of_len ("-map " ++ currentVideoLabel req.subtitles) ?_) h.symm
        simp only [String.length_append]
        omega
      · rcases List.mem_cons.mp hmap2 with h | hmap3
        · refine (ne_map_of_len
            ("-map " ++ currentAudioLabel req.voice_over_audio_url.isSome) ?_) h.symm
          simp only [String.length_append]
          omega
        · cases hmap3
  · unfold outputOptions at hout
    simp at hout
    exact (output_video_path_ne_map process_id req.output_filename) hout.symm

/-- C2: for every request whose referenced clip files all exist (so that the
pipeline reaches the encoder), the argument list handed to `ffmpeg` carries
each output-mapping flag and its stream specifier joined as one single list
element — `f"-map {label}"` — while the bare two-element form `-map` appears
nowhere in the list. -/
theorem C2_map_single_element (fileExists : String → Bool) (render : ℚ → String)
    (process_id : String) (req : ProcessClipsRequest) (cmd : List String)
    (h : processClipsCommand fileExists render process_id req = Except.ok cmd) :
    ("-map " ++ currentVideoLabel req.subtitles) ∈ cmd ∧
      ("-map " ++ currentAudioLabel req.voice_over_audio_url.isSome) ∈ cmd ∧
      "-map" ∉ cmd := by
  have hcmd : cmd = finalCommand render process_id req := by
    unfold processClipsCommand at h
    cases hcs : concatStep fileExists req.clips with
    | error e => rw [hcs] at h; exact absurd h (by simp)
    | ok lines => rw [hcs] at h; exact (Except.ok.inj h).symm
  subst hcmd
  refine ⟨?_, ?_, map_not_in_finalCommand render process_id req⟩
  · unfold finalCommand
    refine List.mem_append.mpr (Or.inl (List.mem_append.mpr (Or.inr ?_)))
    exact List.mem_cons_self _ _
  · unfold finalCommand
    refine List.mem_append.mpr (Or.inl (List.mem_append.mpr (Or.inr ?_)))
    exact List.mem_cons_of_mem _ (List.mem_cons_self _ _)

/-- C2, witnessed on a one-clip request without voice-over or subtitles: the
encoder command contains the single elements `-map [0:v]` and `-map [0:a]`
and does not contain the bare element `-map`. -/
theorem C2_map_single_element_witness :
    processClipsCommand (fun _ => true) (fun _ => "0") "pid0"
        ⟨[⟨"a.mp4"⟩], none, [], none⟩ =
      Except.ok (finalCommand (fun _ => "0") "pid0" ⟨[⟨"a.mp4"⟩], none, [], none⟩) ∧
      (("-map " ++ currentVideoLabel ([] : List SubtitleEntry)) ∈
          finalCommand (fun _ => "0") "pid0" ⟨[⟨"a.mp4"⟩], none, [], none⟩ ∧
        ("-map " ++ currentAudioLabel false) ∈
          finalCommand (fun _ => "0") "pid0" ⟨[⟨"a.mp4"⟩], none, [], none⟩ ∧
        "-map" ∉ finalCommand (fun _ => "0") "pid0" ⟨[⟨"a.mp4"⟩], none, [], none⟩) :=
  ⟨rfl, C2_map_single_element (fun _ => true) (fun _ => "0") "pid0"
    ⟨[⟨"a.mp4"⟩], none, [], none⟩
    (finalCommand (fun _ => "0") "pid0" ⟨[⟨"a.mp4"⟩], none, [], none⟩) rfl⟩
